import Mathlib

/-!
Verification development for the flask-wrappers decorator library
(src/flask_wrappers/wrappers.py).

The Python code is shallowly embedded: Python runtime values are the
inductive `PyValue`, a decoded JSON body is an association list in
insertion order (Python 3.7+ dict semantics), raised exceptions are an
`Except` error channel, and each decorator of the source file becomes an
executable Lean function of the same name (modulo Lean lexical limits).
-/

/-- A Python `datetime.datetime` value (naive: no tzinfo, which the
repository never constructs or inspects). -/
structure PyDatetime where
  year : Nat
  month : Nat
  day : Nat
  hour : Nat
  minute : Nat
  second : Nat
  microsecond : Nat
deriving DecidableEq

/-- Python runtime values as far as the wrappers inspect them.  `float`
carries its `repr` token since no claim computes with float arithmetic;
`obj` stands for any other object (not JSON serializable), carrying its
type name. -/
inductive PyValue where
  | null
  | bool (b : Bool)
  | int (n : Int)
  | float (r : String)
  | str (s : String)
  | list (l : List PyValue)
  | tuple (l : List PyValue)
  | dict (d : List (String × PyValue))
  | datetime (d : PyDatetime)
  | obj (typeName : String)

/-- A decoded JSON body: a Python dict with string keys. -/
abbrev PyDict := List (String × PyValue)

/-- Validation results: Python dict from field key to reason string. -/
abbrev Errors := List (String × String)

/-- Exceptions raised inside the wrappers, by Python class. -/
inductive PyError where
  | assertionError (msg : String)
  | valueError (msg : String)
  | typeError (msg : String)
deriving DecidableEq

/-- The Python `type(v)` of a value, for the exact-type test
`type(obj[key]) is not _type`. -/
inductive PyType where
  | noneT
  | boolT
  | intT
  | floatT
  | strT
  | listT
  | tupleT
  | dictT
  | datetimeT
  | objT (name : String)
deriving DecidableEq

def pyType : PyValue → PyType
  | .null => .noneT
  | .bool _ => .boolT
  | .int _ => .intT
  | .float _ => .floatT
  | .str _ => .strT
  | .list _ => .listT
  | .tuple _ => .tupleT
  | .dict _ => .dictT
  | .datetime _ => .datetimeT
  | .obj n => .objT n

/-- The name `type(v).__name__` used in Python error messages. -/
def pyTypeName : PyValue → String
  | .null => "NoneType"
  | .bool _ => "bool"
  | .int _ => "int"
  | .float _ => "float"
  | .str _ => "str"
  | .list _ => "list"
  | .tuple _ => "tuple"
  | .dict _ => "dict"
  | .datetime _ => "datetime.datetime"
  | .obj n => n

/-- Python dict lookup `d.get(k)` on an association list (first match;
keys are unique under `dictSet`). -/
def dictFind (d : List (String × PyValue)) (k : String) : Option PyValue :=
  (d.find? (fun p => p.1 == k)).map (fun p => p.2)

/-- Python dict assignment `d[k] = v`: overwrite in place, else append. -/
def dictSet (d : List (String × String)) (k v : String) : List (String × String) :=
  if d.any (fun p => p.1 == k) then
    d.map (fun p => if p.1 == k then (k, v) else p)
  else
    d ++ [(k, v)]

/-- Python `sep.join ls`. -/
def pyJoin (sep : String) : List String → String
  | [] => ""
  | [x] => x
  | x :: xs => x ++ sep ++ pyJoin sep xs

/-- Python `s.split(":")` on the character list: split on every colon,
keeping empty groups, as Python does for a non-empty separator. -/
def splitCharsOnColon : List Char → List (List Char)
  | [] => [[]]
  | c :: cs =>
    if c = ':' then
      [] :: splitCharsOnColon cs
    else
      match splitCharsOnColon cs with
      | [] => [[c]]
      | g :: gs => (c :: g) :: gs

/-- Python `s.split(":")`. -/
def pySplitColon (s : String) : List String :=
  (splitCharsOnColon s.data).map List.asString

/-- Python `s.lower()`; ASCII case mapping, which covers every type tag
the repository documents. -/
def pyLower (s : String) : String :=
  (s.data.map Char.toLower).asString

/-- The key order of the `__types` table in `verify_json`, as joined by
`' '.join(__types.keys())` for the invalid-tag message. -/
def typeTagKeys : List String :=
  ["any", "str", "int", "float", "bool", "list", "dict"]

/-- The `__types` table restricted to tags other than `"any"`; `"any"` is
special-cased by `verify_json` before the table is consulted, so its
entry (the string `"any"`, not a type) is never looked up. -/
def resolveType : String → Option PyType
  | "str" => some .strT
  | "int" => some .intT
  | "float" => some .floatT
  | "bool" => some .boolT
  | "list" => some .listT
  | "dict" => some .dictT
  | _ => none

/-- Message of the AssertionError raised for an unrecognized type tag. -/
def invalidTypeMsg (tag : String) : String :=
  tag ++ " is not a valid type. The valid types are: " ++ pyJoin " " typeTagKeys ++ "."

/-- Parsing of one requirement specifier inside `verify_json`: when a
colon is present the code runs `_type_name, key = key.split(":")` (an
unpacking that demands exactly two parts) and lowercases the tag;
without a colon the tag stays `None`. -/
def parseSpec (spec : String) : Except PyError (Option String × String) :=
  match pySplitColon spec with
  | [k] => .ok (none, k)
  | [t, k] => .ok (some (pyLower t), k)
  | _ => .error (.valueError "too many values to unpack (expected 2)")

/-- One iteration of the `for key in required` loop of
`json_request_required.verify_json`. -/
def verifyStep (obj : PyDict) (errors : Errors) (spec : String) : Except PyError Errors :=
  match parseSpec spec with
  | .error e => .error e
  | .ok (tname?, key) =>
    match dictFind obj key with
    | none => .ok (dictSet errors key "missing")
    | some v =>
      match tname? with
      | none => .ok errors
      | some tname =>
        if tname = "any" then .ok errors
        else
          match resolveType tname with
          | none => .error (.assertionError (invalidTypeMsg tname))
          | some t =>
            if pyType v = t then .ok errors
            else .ok (dictSet errors key ("is not of type " ++ tname))

def verifyLoop (obj : PyDict) (errors : Errors) : List String → Except PyError Errors
  | [] => .ok errors
  | spec :: rest =>
    match verifyStep obj errors spec with
    | .error e => .error e
    | .ok errors' => verifyLoop obj errors' rest

/-- `json_request_required.verify_json(obj, required)`: the accumulated
error dict, or the exception the loop raises. -/
def verify_json (obj : PyDict) (required : List String) : Except PyError Errors :=
  verifyLoop obj [] required

/-- One constructor argument of `json_request_required(*args)`: either a
specifier string or a list/tuple of specifier strings. -/
inductive SpecArg where
  | str (s : String)
  | list (l : List String)
deriving DecidableEq

/-- Python `str(arg)` as applied by `verify_json` to each element of
`required`; for a list argument this is its `repr` (quoting of
specifiers that themselves contain quote characters is not modelled). -/
def pyStrOfSpecArg : SpecArg → String
  | .str s => s
  | .list l => "[" ++ pyJoin ", " (l.map (fun s => "\x27" ++ s ++ "\x27")) ++ "]"

/-- `json_request_required.__verify_json(self, obj)`: empty requirement
tuple passes outright; a leading list/tuple argument is unwrapped one
level (dropping any later arguments, as `required = required[0]` does). -/
def verify_json_dispatch (required : List SpecArg) (obj : PyDict) : Except PyError Errors :=
  match required with
  | [] => .ok []
  | .list l :: _ => verify_json obj l
  | args => verify_json obj (args.map pyStrOfSpecArg)

/-- The `request.json` surface the extractor probes with
`type(request.json) is dict`: either a plain value (Flask exposes a
property) or a bound method whose call returns a value (`None` models an
absent or undecodable body on either surface). -/
inductive JsonFacet where
  | prop (v : PyValue)
  | meth (r : PyValue)

/-- Body acquisition inside `json_request.__callback`: a dict property is
taken as-is; any other property value gets called (`request.json()`),
which for a non-callable raises TypeError; a method surface is called
and a `None` result raises the AssertionError. -/
def jsonRequestBody : JsonFacet → Except PyError PyValue
  | .prop (.dict d) => .ok (.dict d)
  | .prop v => .error (.typeError ("\x27" ++ pyTypeName v ++ "\x27 object is not callable"))
  | .meth .null => .error (.assertionError "Request body is not application/json")
  | .meth r => .ok r

/-- The `json_request` decorator: fetch the body, then call the endpoint
with the body prepended to the positional arguments. -/
def json_request (facet : JsonFacet) (func : List PyValue → Except PyError PyValue)
    (args : List PyValue) : Except PyError PyValue :=
  match jsonRequestBody facet with
  | .error e => .error e
  | .ok body => func (body :: args)

/-- An exception propagating out of an arbitrary endpoint: Python class
name, message, and the formatted stack-frame lines of the traceback
(interpreter- and call-site-dependent, so carried as data). -/
structure PyExc where
  cls : String
  msg : String
  frames : String

/-- Python `traceback.format_exc()` for an exception: the header, the
frame lines, and the final `Class: message` line (just `Class` when the
message is empty). -/
def format_exc (e : PyExc) : String :=
  "Traceback (most recent call last):\n" ++ e.frames
    ++ e.cls ++ (if e.msg = "" then "" else ": " ++ e.msg) ++ "\n"

/-- The `catch` decorator: pass a successful result through unchanged;
turn any raised exception into the tuple `(traceback text, 500)`. -/
def catchFn (func : List PyValue → Except PyExc PyValue) (args : List PyValue) : PyValue :=
  match func args with
  | .ok v => v
  | .error e => .tuple [.str (format_exc e), .int 500]

/-- Python `datetime.isoformat()` for naive datetimes: microseconds are
printed only when nonzero. -/
def padZeros (w : Nat) (n : Nat) : String :=
  let s := toString n
  (List.replicate (w - s.length) '0').asString ++ s

def PyDatetime.isoformat (d : PyDatetime) : String :=
  padZeros 4 d.year ++ "-" ++ padZeros 2 d.month ++ "-" ++ padZeros 2 d.day ++ "T"
    ++ padZeros 2 d.hour ++ ":" ++ padZeros 2 d.minute ++ ":" ++ padZeros 2 d.second
    ++ (if d.microsecond = 0 then "" else "." ++ padZeros 6 d.microsecond)

/-- JSON string escaping as `json.dumps` performs it for the characters
the repository can produce (the `\\uXXXX` escapes of other control and
non-ASCII characters are not modelled). -/
def jsonEscapeChar (c : Char) : String :=
  if c = '"' then "\\\""
  else if c = '\\' then "\\\\"
  else if c = '\n' then "\\n"
  else if c = '\t' then "\\t"
  else if c = '\r' then "\\r"
  else String.singleton c

def jsonEscapeChars : List Char → String
  | [] => ""
  | c :: cs => jsonEscapeChar c ++ jsonEscapeChars cs

/-- A JSON string literal for `s`. -/
def jsonQuote (s : String) : String :=
  "\"" ++ jsonEscapeChars s.data ++ "\""

/-- Message of the TypeError `json.dumps` raises on a value its encoder
cannot represent. -/
def notSerializableMsg (typeName : String) : String :=
  "Object of type " ++ typeName ++ " is not JSON serializable"

mutual

/-- `json.dumps(v, cls=__JSONEncoder)`: standard encoding with default
separators; `datetime.datetime` values go through the custom encoder and
come back as their `isoformat()` string; any other non-JSON value raises
TypeError. -/
def jsonDumps : PyValue → Except PyError String
  | .null => .ok "null"
  | .bool true => .ok "true"
  | .bool false => .ok "false"
  | .int n => .ok (toString n)
  | .float r => .ok r
  | .str s => .ok (jsonQuote s)
  | .list l =>
    match jsonDumpsList l with
    | .error e => .error e
    | .ok parts => .ok ("[" ++ pyJoin ", " parts ++ "]")
  | .tuple l =>
    match jsonDumpsList l with
    | .error e => .error e
    | .ok parts => .ok ("[" ++ pyJoin ", " parts ++ "]")
  | .dict d =>
    match jsonDumpsDict d with
    | .error e => .error e
    | .ok parts => .ok ("\x7b" ++ pyJoin ", " parts ++ "\x7d")
  | .datetime d => .ok (jsonQuote d.isoformat)
  | .obj t => .error (.typeError (notSerializableMsg t))

def jsonDumpsList : List PyValue → Except PyError (List String)
  | [] => .ok []
  | v :: vs =>
    match jsonDumps v with
    | .error e => .error e
    | .ok s =>
      match jsonDumpsList vs with
      | .error e => .error e
      | .ok ss => .ok (s :: ss)

def jsonDumpsDict : List (String × PyValue) → Except PyError (List String)
  | [] => .ok []
  | (k, v) :: kvs =>
    match jsonDumps v with
    | .error e => .error e
    | .ok s =>
      match jsonDumpsDict kvs with
      | .error e => .error e
      | .ok ss => .ok ((jsonQuote k ++ ": " ++ s) :: ss)

end

mutual

/-- Whether the custom encoder can represent a value: everything except
(possibly nested) `obj` values. -/
def jsonSerializable : PyValue → Bool
  | .list l => jsonSerializableList l
  | .tuple l => jsonSerializableList l
  | .dict d => jsonSerializableDict d
  | .obj _ => false
  | _ => true

def jsonSerializableList : List PyValue → Bool
  | [] => true
  | v :: vs => jsonSerializable v && jsonSerializableList vs

def jsonSerializableDict : List (String × PyValue) → Bool
  | [] => true
  | (_, v) :: kvs => jsonSerializable v && jsonSerializableDict kvs

end

/-- `isinstance(r, (list, tuple))` together with the element access the
normalization performs. -/
def pySeqElems? : PyValue → Option (List PyValue)
  | .list l => some l
  | .tuple l => some l
  | _ => none

/-- Normalization of an endpoint return value in `json_response`: wrap a
non-sequence as `(value, 200)`, pad short sequences with defaults, and
take the first two elements of anything longer. -/
def normalizeResult (r : PyValue) : PyValue × PyValue :=
  match pySeqElems? r with
  | none => (r, .int 200)
  | some [] => (.str "", .int 200)
  | some [x] => (x, .int 200)
  | some (x :: y :: _) => (x, y)

/-- The host framework response as constructed by `json_response`: the
status is passed through as the Python value `result[1]`. -/
structure FlaskResponse where
  response : String
  status : PyValue
  mimetype : String

/-- The `json_response` decorator: run the endpoint, normalize its
return value, serialize the payload, and build the response. A raised
exception (from the endpoint or from `json.dumps`) propagates. -/
def json_response (func : List PyValue → Except PyError PyValue)
    (args : List PyValue) : Except PyError FlaskResponse :=
  match func args with
  | .error e => .error e
  | .ok r =>
    match jsonDumps (normalizeResult r).1 with
    | .error e => .error e
    | .ok s => .ok (FlaskResponse.mk s (normalizeResult r).2 "application/json")

/-- The verb list `RouteFactory.__wrap_route` hands to `app.route`:
`methods = set(options.get("methods", []))`, the implied verb added when
absent, converted back to a list. Python set iteration order is
unspecified; the model fixes first-insertion order and only membership
is relied upon. -/
def pySetOfList (l : List String) : List String :=
  l.foldl (fun acc m => if m ∈ acc then acc else acc ++ [m]) []

def routeMethods (method : String) (optMethods : List String) : List String :=
  let s := pySetOfList optMethods
  if method ∈ s then s else s ++ [method]

/-- Little-endian decimal digits of a natural number, as Python `str`
renders a nonnegative int (CPython object ids are nonnegative). -/
def toDig (n : Nat) : List Nat :=
  if n < 10 then [n] else n % 10 :: toDig (n / 10)
termination_by n
decreasing_by
  simp_wf
  exact Nat.div_lt_self (by omega) (by omega)

/-- Inverse of `toDig`, for its injectivity. -/
def ofDig : List Nat → Nat
  | [] => 0
  | d :: ds => d + 10 * ofDig ds

def digitChar : Nat → Char
  | 0 => '0'
  | 1 => '1'
  | 2 => '2'
  | 3 => '3'
  | 4 => '4'
  | 5 => '5'
  | 6 => '6'
  | 7 => '7'
  | 8 => '8'
  | 9 => '9'
  | _ => '*'

/-- Python `str(n)` for a nonnegative int: decimal digits, most
significant first. -/
def natStr (n : Nat) : String :=
  ((toDig n).reverse.map digitChar).asString

/-- The generated callback identifier of `RouteFactory.__wrap_route`:
`func.__name__ + str(id(__callback))`, with the runtime id of the fresh
closure modelled as a natural number distinct per decoration (CPython
guarantees distinct ids for simultaneously live objects, nothing more). -/
def genRouteName (funcName : String) (callbackId : Nat) : String :=
  funcName ++ natStr callbackId

theorem strDataAppend (a b : String) : (a ++ b).data = a.data ++ b.data := by
  rcases a with ⟨la⟩
  rcases b with ⟨lb⟩
  rfl

theorem ofDig_toDig (n : Nat) : ofDig (toDig n) = n := by
  induction n using Nat.strong_induction_on with
  | _ n ih =>
    rw [toDig]
    by_cases h : n < 10
    · simp [h, ofDig]
    · simp only [h, if_false, ofDig]
      rw [ih (n / 10) (Nat.div_lt_self (by omega) (by omega))]
      omega

theorem toDig_inj (a b : Nat) (h : toDig a = toDig b) : a = b := by
  have ha := ofDig_toDig a
  rw [h, ofDig_toDig] at ha
  omega

theorem toDig_lt (n : Nat) : ∀ d ∈ toDig n, d < 10 := by
  induction n using Nat.strong_induction_on with
  | _ n ih =>
    rw [toDig]
    by_cases h : n < 10
    · simp [h]
    · simp only [h, if_false]
      intro d hd
      rcases List.mem_cons.mp hd with h1 | h2
      · subst h1; exact Nat.mod_lt _ (by omega)
      · exact ih (n / 10) (Nat.div_lt_self (by omega) (by omega)) d h2

theorem digitChar_inj10 (a b : Nat) (ha : a < 10) (hb : b < 10)
    (h : digitChar a = digitChar b) : a = b := by
  interval_cases a <;> interval_cases b <;> simp_all [digitChar]

theorem mapDigitChar_inj : ∀ (l1 l2 : List Nat), (∀ d ∈ l1, d < 10) → (∀ d ∈ l2, d < 10) →
    l1.map digitChar = l2.map digitChar → l1 = l2 := by
  intro l1
  induction l1 with
  | nil =>
    intro l2 _ _ h
    cases l2 with
    | nil => rfl
    | cons b bs => simp at h
  | cons a as ih =>
    intro l2 h1 h2 h
    cases l2 with
    | nil => simp at h
    | cons b bs =>
      simp only [List.map, List.cons.injEq] at h
      have hab : a = b :=
        digitChar_inj10 a b (h1 a (by simp)) (h2 b (by simp)) h.1
      have hrest : as = bs :=
        ih bs (fun d hd => h1 d (by simp [hd])) (fun d hd => h2 d (by simp [hd])) h.2
      rw [hab, hrest]

theorem natStr_data_inj (a b : Nat) (h : (natStr a).data = (natStr b).data) : a = b := by
  have h' : ((toDig a).reverse.map digitChar) = ((toDig b).reverse.map digitChar) := h
  have hrev : (toDig a).reverse = (toDig b).reverse :=
    mapDigitChar_inj _ _ (fun d hd => toDig_lt a d (List.mem_reverse.mp hd))
      (fun d hd => toDig_lt b d (List.mem_reverse.mp hd)) h'
  exact toDig_inj a b (List.reverse_injective hrev)

theorem toDig_two : toDig 2 = [2] := by rw [toDig]; simp
theorem toDig_twelve : toDig 12 = [2, 1] := by
  rw [toDig]
  norm_num
  rw [toDig]
  simp

/-- Claim C1: `catch` passes a successful result through unchanged and
turns any raised exception into the pair of the full formatted traceback
text, which contains the exception class name and message, and 500. -/
theorem catch_spec (func : List PyValue → Except PyExc PyValue) (args : List PyValue) :
    (∀ e, func args = .error e →
      catchFn func args = .tuple [.str (format_exc e), .int 500] ∧
      (e.msg ≠ "" → ∃ a b, format_exc e = a ++ (e.cls ++ ": " ++ e.msg) ++ b)) ∧
    (∀ v, func args = .ok v → catchFn func args = v) := by
  constructor
  · intro e he
    constructor
    · simp [catchFn, he]
    · intro hm
      refine ⟨"Traceback (most recent call last):\n" ++ e.frames, "\n", ?_⟩
      simp [format_exc, hm, String.append_assoc]
  · intro v hv
    simp [catchFn, hv]

theorem catch_spec_w :
    catchFn (fun _ => .error (PyExc.mk "ValueError" "boom" "  two frame lines\n")) [] =
      .tuple [.str "Traceback (most recent call last):\n  two frame lines\nValueError: boom\n",
        .int 500] ∧
    catchFn (fun _ => .ok (.int 7)) [] = .int 7 := by
  constructor
  · rw [((catch_spec (fun _ => .error (PyExc.mk "ValueError" "boom" "  two frame lines\n")) []).1
      (PyExc.mk "ValueError" "boom" "  two frame lines\n") rfl).1]
    rfl
  · exact (catch_spec (fun _ => .ok (.int 7)) []).2 (.int 7) rfl

/-- Claim C2 (code bug): on the Flask property surface an absent or
undecodable body makes `request.json` the non-dict value `None`, and the
wrapper then evaluates `request.json()`, raising TypeError instead of
the AssertionError its own message announces; the assertion path is only
reachable through a callable json surface, and a dict body is prepended
to the endpoint arguments unchanged. -/
theorem json_request_eval :
    json_request (.prop .null) (fun l => .ok (.list l)) [] =
      .error (.typeError "\x27NoneType\x27 object is not callable") ∧
    json_request (.meth .null) (fun l => .ok (.list l)) [] =
      .error (.assertionError "Request body is not application/json") ∧
    json_request (.prop (.dict [("a", .int 1)])) (fun l => .ok (.list l)) [] =
      .ok (.list [.dict [("a", .int 1)]]) :=
  ⟨rfl, rfl, rfl⟩

/-- Claim C3: for a recognized non-any tag and a present key, validation
records exactly the mismatch message when the runtime type differs from
the resolved type, with no coercion and no subclass acceptance. -/
theorem verify_type_check (obj : PyDict) (spec tag key : String) (v : PyValue) (t : PyType)
    (hp : parseSpec spec = .ok (some tag, key)) (hres : resolveType tag = some t)
    (hv : dictFind obj key = some v) :
    verify_json obj [spec] =
      .ok (if pyType v = t then [] else [(key, "is not of type " ++ tag)]) := by
  have hany : tag ≠ "any" := by
    intro h
    rw [h] at hres
    simp [resolveType] at hres
  unfold verify_json verifyLoop
  by_cases ht : pyType v = t <;>
    simp [verifyStep, hp, hv, hany, hres, verifyLoop, ht, dictSet]

theorem verify_type_check_w :
    verify_json [("age", .str "12")] ["int:age"] = .ok [("age", "is not of type int")] ∧
    verify_json [("age", .int 12)] ["int:age"] = .ok [] := by
  constructor
  · rw [verify_type_check [("age", .str "12")] "int:age" "int" "age" (.str "12") .intT
      rfl rfl rfl]
    rfl
  · rw [verify_type_check [("age", .int 12)] "int:age" "int" "age" (.int 12) .intT
      rfl rfl rfl]
    rfl

/-- Claim C5: a present key whose specifier carries a tag outside the
fixed type table makes validation raise the AssertionError that names
the tag and lists the valid tags (when the key is absent the missing
check fires first; see the missing-precedence theorem). -/
theorem verify_invalid_tag (obj : PyDict) (spec tag key : String) (v : PyValue)
    (hp : parseSpec spec = .ok (some tag, key)) (hv : dictFind obj key = some v)
    (hany : tag ≠ "any") (hres : resolveType tag = none) :
    verify_json obj [spec] = .error (.assertionError (invalidTypeMsg tag)) := by
  unfold verify_json verifyLoop
  simp [verifyStep, hp, hv, hany, hres]

theorem verify_invalid_tag_w :
    verify_json [("field", .int 1)] ["weird:field"] =
      .error (.assertionError
        "weird is not a valid type. The valid types are: any str int float bool list dict.") := by
  rw [verify_invalid_tag [("field", .int 1)] "weird:field" "weird" "field" (.int 1)
    rfl rfl (by decide) rfl]
  rfl

/-- Claim C10: an absent key records "missing" before any tag
resolution, so even an unrecognized tag cannot raise when its key is
absent. -/
theorem verify_missing_first (obj : PyDict) (errors : Errors) (spec : String)
    (tag? : Option String) (key : String)
    (hp : parseSpec spec = .ok (tag?, key)) (habs : dictFind obj key = none) :
    verifyStep obj errors spec = .ok (dictSet errors key "missing") ∧
    verify_json obj [spec] = .ok [(key, "missing")] := by
  constructor
  · simp [verifyStep, hp, habs]
  · unfold verify_json verifyLoop
    simp [verifyStep, hp, habs, verifyLoop, dictSet]

theorem verify_missing_first_w :
    verifyStep [] [] "weird:field" = .ok [("field", "missing")] ∧
    verify_json [] ["weird:field"] = .ok [("field", "missing")] := by
  have h := verify_missing_first [] [] "weird:field" (some "weird") "field" rfl rfl
  exact ⟨h.1.trans (by rfl), h.2⟩

/-- Claim C4 is false as stated: the code runs
`_type_name, key = key.split(":")`, which splits on every colon and
unpacks into exactly two names, so a specifier with a second colon does
not keep it in the key part but raises ValueError. -/
theorem spec_split_cex :
    parseSpec "int:a:b" = .error (.valueError "too many values to unpack (expected 2)") ∧
    verify_json [("a:b", .int 5)] ["int:a:b"] =
      .error (.valueError "too many values to unpack (expected 2)") :=
  ⟨rfl, rfl⟩

/-- Claim C4 as amended: a specifier with exactly one colon parses into
the lowercased tag and the key, a specifier with no colon parses as the
bare key with no tag (a present bare key passes with no type check, as
with tag any), and a specifier with two or more colons raises a
ValueError from the unpacking. -/
theorem parseSpec_amended (s t k : String) (obj : PyDict) (errors : Errors) (v : PyValue) :
    (pySplitColon s = [s] → parseSpec s = .ok (none, s)) ∧
    (pySplitColon s = [t, k] → parseSpec s = .ok (some (pyLower t), k)) ∧
    (3 ≤ (pySplitColon s).length →
      parseSpec s = .error (.valueError "too many values to unpack (expected 2)")) ∧
    (pySplitColon s = [s] → dictFind obj s = some v →
      verifyStep obj errors s = .ok errors) := by
  refine ⟨?_, ?_, ?_, ?_⟩
  · intro h
    simp [parseSpec, h]
  · intro h
    simp [parseSpec, h]
  · intro h
    rcases hx : pySplitColon s with _ | ⟨a, _ | ⟨b, _ | ⟨c, rest⟩⟩⟩
    · rw [hx] at h; simp at h
    · rw [hx] at h; simp at h
    · rw [hx] at h; simp at h
    · simp [parseSpec, hx]
  · intro h hv
    simp [verifyStep, parseSpec, h, hv]

theorem parseSpec_amended_w :
    parseSpec "int:age" = .ok (some "int", "age") ∧
    parseSpec "a:b:c" = .error (.valueError "too many values to unpack (expected 2)") ∧
    verifyStep [("name", .int 1)] [] "name" = .ok [] := by
  refine ⟨?_, ?_, ?_⟩
  · rw [(parseSpec_amended "int:age" "int" "age" [] [] .null).2.1 rfl]
    rfl
  · exact (parseSpec_amended "a:b:c" "" "" [] [] .null).2.2.1 (by decide)
  · exact (parseSpec_amended "name" "" "" [("name", .int 1)] [] (.int 1)).2.2.2 rfl rfl

/-- Claim C6: normalization of an endpoint return value (non-sequence
becomes (value, 200); empty sequence ("", 200); singleton (elem, 200);
longer sequences contribute elements 0 and 1, rest ignored) and the
response built from the serialized payload, the normalized status and
the application/json content type. -/
theorem json_response_spec (func : List PyValue → Except PyError PyValue)
    (args : List PyValue) (r : PyValue) (h : func args = .ok r) :
    (pySeqElems? r = none → normalizeResult r = (r, .int 200)) ∧
    (pySeqElems? r = some [] → normalizeResult r = (.str "", .int 200)) ∧
    (∀ x, pySeqElems? r = some [x] → normalizeResult r = (x, .int 200)) ∧
    (∀ x y rest, pySeqElems? r = some (x :: y :: rest) → normalizeResult r = (x, y)) ∧
    json_response func args = ((jsonDumps (normalizeResult r).1).map
      (fun s => FlaskResponse.mk s (normalizeResult r).2 "application/json")) := by
  refine ⟨?_, ?_, ?_, ?_, ?_⟩
  · intro hn; simp [normalizeResult, hn]
  · intro hn; simp [normalizeResult, hn]
  · intro x hn; simp [normalizeResult, hn]
  · intro x y rest hn; simp [normalizeResult, hn]
  · simp only [json_response, h]
    cases hd : jsonDumps (normalizeResult r).1 <;> simp [hd, Except.map]

theorem json_response_spec_w :
    json_response (fun _ => .ok (.dict [("a", .int 1)])) [] =
      .ok (FlaskResponse.mk "\x7b\"a\": 1\x7d" (.int 200) "application/json") ∧
    json_response (fun _ => .ok (.tuple [.dict [("a", .int 1)], .int 201])) [] =
      .ok (FlaskResponse.mk "\x7b\"a\": 1\x7d" (.int 201) "application/json") ∧
    json_response (fun _ => .ok (.tuple [])) [] =
      .ok (FlaskResponse.mk "\"\"" (.int 200) "application/json") := by
  refine ⟨?_, ?_, ?_⟩
  · rw [(json_response_spec (fun _ => .ok (.dict [("a", .int 1)])) []
      (.dict [("a", .int 1)]) rfl).2.2.2.2]
    rfl
  · rw [(json_response_spec (fun _ => .ok (.tuple [.dict [("a", .int 1)], .int 201])) []
      (.tuple [.dict [("a", .int 1)], .int 201]) rfl).2.2.2.2]
    rfl
  · rw [(json_response_spec (fun _ => .ok (.tuple [])) [] (.tuple []) rfl).2.2.2.2]
    rfl

mutual

theorem jsonDumps_total (v : PyValue) :
    (jsonSerializable v = true → ∃ s, jsonDumps v = .ok s) ∧
    (jsonSerializable v = false →
      ∃ t, jsonDumps v = .error (.typeError (notSerializableMsg t))) := by
  cases v with
  | null => exact ⟨fun _ => ⟨"null", rfl⟩, fun h => by simp [jsonSerializable] at h⟩
  | bool b =>
    cases b with
    | true => exact ⟨fun _ => ⟨"true", rfl⟩, fun h => by simp [jsonSerializable] at h⟩
    | false => exact ⟨fun _ => ⟨"false", rfl⟩, fun h => by simp [jsonSerializable] at h⟩
  | int n => exact ⟨fun _ => ⟨toString n, rfl⟩, fun h => by simp [jsonSerializable] at h⟩
  | float r => exact ⟨fun _ => ⟨r, rfl⟩, fun h => by simp [jsonSerializable] at h⟩
  | str s => exact ⟨fun _ => ⟨jsonQuote s, rfl⟩, fun h => by simp [jsonSerializable] at h⟩
  | datetime d =>
    exact ⟨fun _ => ⟨jsonQuote d.isoformat, rfl⟩, fun h => by simp [jsonSerializable] at h⟩
  | obj t => exact ⟨fun h => by simp [jsonSerializable] at h, fun _ => ⟨t, rfl⟩⟩
  | list l =>
    have hl := jsonDumpsList_total l
    constructor
    · intro h
      simp only [jsonSerializable] at h
      obtain ⟨ss, hss⟩ := hl.1 h
      exact ⟨"[" ++ pyJoin ", " ss ++ "]", by simp [jsonDumps, hss]⟩
    · intro h
      simp only [jsonSerializable] at h
      obtain ⟨t, ht⟩ := hl.2 h
      exact ⟨t, by simp [jsonDumps, ht]⟩
  | tuple l =>
    have hl := jsonDumpsList_total l
    constructor
    · intro h
      simp only [jsonSerializable] at h
      obtain ⟨ss, hss⟩ := hl.1 h
      exact ⟨"[" ++ pyJoin ", " ss ++ "]", by simp [jsonDumps, hss]⟩
    · intro h
      simp only [jsonSerializable] at h
      obtain ⟨t, ht⟩ := hl.2 h
      exact ⟨t, by simp [jsonDumps, ht]⟩
  | dict d =>
    have hd := jsonDumpsDict_total d
    constructor
    · intro h
      simp only [jsonSerializable] at h
      obtain ⟨ss, hss⟩ := hd.1 h
      exact ⟨"\x7b" ++ pyJoin ", " ss ++ "\x7d", by simp [jsonDumps, hss]⟩
    · intro h
      simp only [jsonSerializable] at h
      obtain ⟨t, ht⟩ := hd.2 h
      exact ⟨t, by simp [jsonDumps, ht]⟩

theorem jsonDumpsList_total (l : List PyValue) :
    (jsonSerializableList l = true → ∃ ss, jsonDumpsList l = .ok ss) ∧
    (jsonSerializableList l = false →
      ∃ t, jsonDumpsList l = .error (.typeError (notSerializableMsg t))) := by
  cases l with
  | nil => exact ⟨fun _ => ⟨[], rfl⟩, fun h => by simp [jsonSerializableList] at h⟩
  | cons v vs =>
    have hv := jsonDumps_total v
    have hvs := jsonDumpsList_total vs
    constructor
    · intro h
      simp only [jsonSerializableList, Bool.and_eq_true] at h
      obtain ⟨s, hs⟩ := hv.1 h.1
      obtain ⟨ss, hss⟩ := hvs.1 h.2
      exact ⟨s :: ss, by simp [jsonDumpsList, hs, hss]⟩
    · intro h
      simp only [jsonSerializableList] at h
      cases hcase : jsonSerializable v with
      | false =>
        obtain ⟨t, ht⟩ := hv.2 hcase
        exact ⟨t, by simp [jsonDumpsList, ht]⟩
      | true =>
        have hrest : jsonSerializableList vs = false := by
          rw [hcase] at h
          simpa using h
        obtain ⟨s, hs⟩ := hv.1 hcase
        obtain ⟨t, ht⟩ := hvs.2 hrest
        exact ⟨t, by simp [jsonDumpsList, hs, ht]⟩

theorem jsonDumpsDict_total (d : List (String × PyValue)) :
    (jsonSerializableDict d = true → ∃ ss, jsonDumpsDict d = .ok ss) ∧
    (jsonSerializableDict d = false →
      ∃ t, jsonDumpsDict d = .error (.typeError (notSerializableMsg t))) := by
  cases d with
  | nil => exact ⟨fun _ => ⟨[], rfl⟩, fun h => by simp [jsonSerializableDict] at h⟩
  | cons kv kvs =>
    obtain ⟨k, v⟩ := kv
    have hv := jsonDumps_total v
    have hkvs := jsonDumpsDict_total kvs
    constructor
    · intro h
      simp only [jsonSerializableDict, Bool.and_eq_true] at h
      obtain ⟨s, hs⟩ := hv.1 h.1
      obtain ⟨ss, hss⟩ := hkvs.1 h.2
      exact ⟨(jsonQuote k ++ ": " ++ s) :: ss, by simp [jsonDumpsDict, hs, hss]⟩
    · intro h
      simp only [jsonSerializableDict] at h
      cases hcase : jsonSerializable v with
      | false =>
        obtain ⟨t, ht⟩ := hv.2 hcase
        exact ⟨t, by simp [jsonDumpsDict, ht]⟩
      | true =>
        have hrest : jsonSerializableDict kvs = false := by
          rw [hcase] at h
          simpa using h
        obtain ⟨s, hs⟩ := hv.1 hcase
        obtain ⟨t, ht⟩ := hkvs.2 hrest
        exact ⟨t, by simp [jsonDumpsDict, hs, ht]⟩

end

/-- Claim C7: the custom encoder serializes a datetime value (also as a
field inside a payload) to its ISO-8601 string, serializes every payload
built only of JSON-representable values and datetimes, and raises a
TypeError naming the offending type on any payload containing a value
standard JSON cannot represent. -/
theorem json_encoder_spec (v : PyValue) (d : PyDatetime) (k : String) :
    jsonDumps (.datetime d) = .ok (jsonQuote d.isoformat) ∧
    jsonDumps (.dict [(k, .datetime d)]) =
      .ok ("\x7b" ++ jsonQuote k ++ ": " ++ jsonQuote d.isoformat ++ "\x7d") ∧
    (jsonSerializable v = true → ∃ s, jsonDumps v = .ok s) ∧
    (jsonSerializable v = false →
      ∃ t, jsonDumps v = .error (.typeError (notSerializableMsg t))) := by
  refine ⟨rfl, ?_, (jsonDumps_total v).1, (jsonDumps_total v).2⟩
  simp [jsonDumps, jsonDumpsDict, pyJoin, String.append_assoc]

theorem json_encoder_spec_w :
    jsonDumps (.datetime (PyDatetime.mk 2024 1 1 0 0 0 0)) = .ok "\"2024-01-01T00:00:00\"" ∧
    (∃ t, jsonDumps (.obj "set") = .error (.typeError (notSerializableMsg t))) := by
  constructor
  · rw [(json_encoder_spec (.obj "set") (PyDatetime.mk 2024 1 1 0 0 0 0) "x").1]
    rfl
  · exact (json_encoder_spec (.obj "set") (PyDatetime.mk 2024 1 1 0 0 0 0) "x").2.2.2 rfl

/-- Claim C8: spreading specifiers as separate constructor arguments and
passing them as one list or tuple give identical validation results, by
the one-level unwrap of a leading sequence argument. -/
theorem dispatch_spread_eq_list (obj : PyDict) (specs : List String) :
    verify_json_dispatch (specs.map .str) obj = verify_json_dispatch [.list specs] obj := by
  cases specs with
  | nil => rfl
  | cons s rest =>
    simp only [List.map, verify_json_dispatch]
    congr 1
    simp only [List.map_map]
    have hcomp : pyStrOfSpecArg ∘ SpecArg.str = id := funext fun x => rfl
    simp [pyStrOfSpecArg, hcomp]

/-- Claim C9 is false as stated: the generated identifier is the
function name concatenated with the decimal callback id, and two
decorations of functions with different names can collide even with
distinct ids. -/
theorem route_name_cex :
    genRouteName "f" 12 = genRouteName "f1" 2 ∧ (12 : Nat) ≠ 2 := by
  constructor
  · rw [genRouteName, genRouteName, natStr, natStr, toDig_twelve, toDig_two]
    rfl
  · decide

/-- Claim C9 as amended: the verb implied by the factory method is
always in the registered verb set even when the caller's methods option
omits it, and two decorations of handlers sharing the same original
function name get distinct generated identifiers because their runtime
ids differ. -/
theorem route_factory_spec (method : String) (optMethods : List String)
    (name : String) (i j : Nat) :
    method ∈ routeMethods method optMethods ∧
    (i ≠ j → genRouteName name i ≠ genRouteName name j) := by
  constructor
  · rw [routeMethods]
    by_cases h : method ∈ pySetOfList optMethods
    · simp [h]
    · simp [h]
  · intro hij he
    apply hij
    have hd : name.data ++ (natStr i).data = name.data ++ (natStr j).data := by
      have h1 := congrArg String.data he
      rwa [genRouteName, genRouteName, strDataAppend, strDataAppend] at h1
    exact natStr_data_inj i j (List.append_cancel_left hd)

theorem route_factory_spec_w :
    "GET" ∈ routeMethods "GET" ["POST"] ∧
    genRouteName "handler" 1 ≠ genRouteName "handler" 2 :=
  ⟨(route_factory_spec "GET" ["POST"] "handler" 1 2).1,
    (route_factory_spec "GET" ["POST"] "handler" 1 2).2 (by decide)⟩
